import Mathlib

/-!
Verification of the APNews-Crawler pipeline.

This file shallow-embeds the repository's data model and operations: the
URL-to-document-id derivation (src/utils), the crawlers (src/crawler), the
headline clients (src/news), the news service (src/service), the analyzer's
merge (src/llm), the Firestore value encoder (src/firebase) and the processor
loop (src/processor). External transports (HTTP, the LLM endpoint, the
document store, the notifier) are parameters of the embedded functions:
an exception raised by one of them is the `Except.error` value it returns.

The source snapshot is an inconsistent checkpoint of a repeatedly refactored
code base: the model module holds a superseded shape while every other module
imports `PartialArticle`/`FullArticle`, and the processor module is a
superseded revision that its own caller (src/main.py) no longer matches.
Definitions for those missing pieces are marked `Modelled from the spec:`.
-/

set_option linter.unusedVariables false

namespace APNews

/-- Helper: first-some choice between two options, used to state the
precedence of one lookup over another. -/
def optOr {α : Type} : Option α → Option α → Option α
  | some a, _ => some a
  | none, b => b

/-! ### URL to document id (src/utils/init.py) -/

/-- Alphabet of URL-safe base64 (`base64.urlsafe_b64encode`): sextet values
0-25 map to the ASCII codes of A-Z, 26-51 to a-z, 52-61 to the digits, 62 to
the minus sign (45) and 63 to the underscore (95). -/
def b64char (v : Nat) : Nat :=
  if v < 26 then 65 + v
  else if v < 52 then 71 + v
  else if v < 62 then v - 4
  else if v = 62 then 45
  else 95

/-- Partial inverse of the URL-safe base64 alphabet: the sextet value of an
alphabet character, `none` for a character outside the alphabet. -/
def b64val (c : Nat) : Option Nat :=
  if 65 ≤ c ∧ c ≤ 90 then some (c - 65)
  else if 97 ≤ c ∧ c ≤ 122 then some (c - 71)
  else if 48 ≤ c ∧ c ≤ 57 then some (c + 4)
  else if c = 45 then some 62
  else if c = 95 then some 63
  else none

/-- URL-safe base64 encoding of a byte list (`base64.urlsafe_b64encode`): each
3-byte group becomes 4 alphabet characters; a final group of 1 or 2 bytes is
completed with the padding character `'='` (code 61). -/
def b64encode : List Nat → List Nat
  | [] => []
  | [b0] => [b64char (b0 / 4), b64char (b0 % 4 * 16), 61, 61]
  | [b0, b1] => [b64char (b0 / 4), b64char (b0 % 4 * 16 + b1 / 16), b64char (b1 % 16 * 4), 61]
  | b0 :: b1 :: b2 :: rest =>
      b64char (b0 / 4) :: b64char (b0 % 4 * 16 + b1 / 16) ::
        b64char (b1 % 16 * 4 + b2 / 64) :: b64char (b2 % 64) :: b64encode rest

/-- URL-safe base64 decoding of a padded character list, the claim's reverse
direction: 4 characters at a time, with the two padded final-group forms
recognised at the end of the input; `none` on any malformed input. -/
def b64decode : List Nat → Option (List Nat)
  | [] => some []
  | c0 :: c1 :: c2 :: c3 :: rest =>
    if c2 = 61 ∧ c3 = 61 ∧ rest = [] then
      match b64val c0, b64val c1 with
      | some v0, some v1 => some [v0 * 4 + v1 / 16]
      | _, _ => none
    else if c3 = 61 ∧ rest = [] then
      match b64val c0, b64val c1, b64val c2 with
      | some v0, some v1, some v2 => some [v0 * 4 + v1 / 16, v1 % 16 * 16 + v2 / 4]
      | _, _, _ => none
    else
      match b64val c0, b64val c1, b64val c2, b64val c3, b64decode rest with
      | some v0, some v1, some v2, some v3, some bs =>
          some ((v0 * 4 + v1 / 16) :: (v1 % 16 * 16 + v2 / 4) :: (v2 % 4 * 64 + v3) :: bs)
      | _, _, _, _, _ => none
  | _ => none

/-- Embedding of `str.rstrip("=")`: remove every trailing occurrence of the
padding character (code 61). -/
def rstripEq (xs : List Nat) : List Nat :=
  (xs.reverse.dropWhile (fun c => c == 61)).reverse

/-- Restoration of the stripped padding, as the claim describes it: append
padding characters until the length is a multiple of 4. -/
def restorePad (xs : List Nat) : List Nat :=
  xs ++ List.replicate ((4 - xs.length % 4) % 4) 61

/-- UTF-8 encoding of one character: the byte sequence Python's
`str.encode("utf-8")` produces for that code point. -/
def utf8EncodeChar (c : Char) : List Nat :=
  if c.toNat < 128 then [c.toNat]
  else if c.toNat < 2048 then [192 + c.toNat / 64, 128 + c.toNat % 64]
  else if c.toNat < 65536 then
    [224 + c.toNat / 4096, 128 + c.toNat / 64 % 64, 128 + c.toNat % 64]
  else
    [240 + c.toNat / 262144, 128 + c.toNat / 4096 % 64,
     128 + c.toNat / 64 % 64, 128 + c.toNat % 64]

/-- UTF-8 byte sequence of a string, the string taken as its character list. -/
def utf8Encode : List Char → List Nat
  | [] => []
  | c :: cs => utf8EncodeChar c ++ utf8Encode cs

/-- Embedding of `url_to_document_id` (src/utils/init.py): URL-safe base64 of
the UTF-8 bytes of the URL, with the trailing padding characters stripped. -/
def url_to_document_id (url : List Char) : List Nat :=
  rstripEq (b64encode (utf8Encode url))

/-! ### Data model (src/model) -/

/-- Modelled from the spec: `src.model.PartialArticle` is imported by every
stage but the snapshot's model module only holds a superseded shape
(`InitialNews`); fields follow spec section 3 (author: optional text, title:
text, url: text, imageUrl: optional text) and the construction sites in the
source. -/
structure PartialArticle where
  author : Option String
  title : String
  url : String
  imageUrl : Option String
  deriving Repr, DecidableEq

/-- Modelled from the spec: `src.model.FullArticle` is likewise absent from
the snapshot. The stub field is reconstructed by `_create_crawled_news`, and
the content field is `list[str]` per that helper's signature in
src/crawler/ap_news_crawler.py. -/
structure FullArticle where
  article : PartialArticle
  content : List String
  deriving Repr, DecidableEq

/-! ### Crawlers (src/crawler) -/

/-- Embedding of `BaseNewsCrawler._create_crawled_news`
(src/crawler/ap_news_crawler.py lines 22-40). -/
def _create_crawled_news (news : PartialArticle) (content : List String) : FullArticle :=
  { article :=
      { author := news.author
        title := news.title
        url := news.url
        imageUrl := news.imageUrl }
    content := content }

/-- Embedding of `APNewsCrawler.crawl_article` (lines 54-77). The ScraperAPI
transport is the function `fetch` (a network error or the `raise_for_status`
of a non-2xx reply is its `error` value); locating `div.RichTextBody` in the
parsed page is `find`, and `get_text` reads a region's stripped text. -/
def APNewsCrawler_crawl_article (fetch : String → String → Except String String)
    (find : String → Option String) (get_text : String → String)
    (api_key : String) (news : PartialArticle) : Except String FullArticle :=
  match fetch api_key news.url with
  | Except.error e => Except.error e
  | Except.ok page =>
    let content :=
      match find page with
      | some content_div => get_text content_div
      | none => ""
    Except.ok (_create_crawled_news news [content])

/-- Embedding of `TuoiTreNewsCrawler.crawl_article`
(src/crawler/tuoitre_news_crawler.py lines 19-42); identical control flow with
the publisher-specific selector `div.detail__main` as its `find`. -/
def TuoiTreNewsCrawler_crawl_article (fetch : String → String → Except String String)
    (find : String → Option String) (get_text : String → String)
    (api_key : String) (news : PartialArticle) : Except String FullArticle :=
  match fetch api_key news.url with
  | Except.error e => Except.error e
  | Except.ok page =>
    let content :=
      match find page with
      | some content_div => get_text content_div
      | none => ""
    Except.ok (_create_crawled_news news [content])

/-! ### Headline clients (src/news) -/

/-- One record of a NewsAPI top-headlines response (spec section 6 boundary:
author, title, url, imageUrl); `urlToImage` is NewsAPI's field name. -/
structure NewsAPIArticle where
  author : Option String
  title : String
  url : String
  urlToImage : Option String
  deriving Repr, DecidableEq

/-- Body of a NewsAPI top-headlines response: its `articles` list. -/
structure NewsAPIResponse where
  articles : List NewsAPIArticle
  deriving Repr, DecidableEq

/-- Embedding of `NewsAPIClient.get_headlines` (src/news/newsapi_client.py
lines 40-68): the request carrying the `pageSize=total` hint is the function
`fetch`; a `RequestException` (network failure, or `raise_for_status` on a
non-2xx reply) is its `error` value and yields the empty list after a logged
message; otherwise every article of the response is mapped to a stub. -/
def NewsAPIClient_get_headlines (fetch : String → Nat → Except String NewsAPIResponse)
    (source_id : String) (total : Nat) : List PartialArticle :=
  match fetch source_id total with
  | Except.error _ => []
  | Except.ok response =>
    response.articles.map (fun a =>
      { author := a.author, title := a.title, url := a.url, imageUrl := a.urlToImage })

/-- One record of a NewsData.io response, with the fields the client reads. -/
structure NewsIOArticle where
  creator : Option (List String)
  source_id : Option String
  title : Option String
  link : Option String
  image_url : Option String
  deriving Repr, DecidableEq

/-- Body of a NewsData.io response: the fields the client reads. -/
structure NewsIOResponse where
  status : String
  totalResults : Nat
  results : List NewsIOArticle
  deriving Repr, DecidableEq

/-- Python truthiness of an optional string: `None` and the empty string are
falsy. -/
def pyTruthy : Option String → Bool
  | none => false
  | some s => !(s == "")

/-- Embedding of `NewsIOAPIClient._parse_author` (src/news/newsio_client.py
lines 22-35): join the non-empty creator names, else fall back to the source
id or `"Unknown"`. An empty creator list is falsy in Python, so it also falls
back. -/
def _parse_author (article : NewsIOArticle) : String :=
  match article.creator with
  | some creators =>
    if creators.isEmpty then article.source_id.getD "Unknown"
    else String.intercalate ", " (creators.filter (fun s => !(s == "")))
  | none => article.source_id.getD "Unknown"

/-- Embedding of `NewsIOAPIClient.get_headlines` (lines 37-81): transport
failure, a non-success status and an empty result count each yield the empty
list; otherwise the articles having both a truthy title and a truthy link are
mapped to stubs. -/
def NewsIOAPIClient_get_headlines (fetch : String → Nat → Except String NewsIOResponse)
    (source_id : String) (total : Nat) : List PartialArticle :=
  match fetch source_id total with
  | Except.error _ => []
  | Except.ok data =>
    if data.status ≠ "success" then []
    else if data.totalResults = 0 then []
    else
      (data.results.filter (fun a => pyTruthy a.title && pyTruthy a.link)).map (fun a =>
        { author := some (_parse_author a)
          title := (a.title.getD "").trim
          url := a.link.getD ""
          imageUrl := some (a.image_url.getD "") })

/-! ### News service (src/service/news_service.py) -/

/-- The per-stub crawl loop shared by every `get_full_articles` implementation
(src/service/news_service.py lines 56-63): a crawl failure is caught, logged
and the article dropped; the loop continues with the remaining stubs. -/
def crawl_loop (crawl : PartialArticle → Except String FullArticle) :
    List PartialArticle → List FullArticle
  | [] => []
  | article :: rest =>
    match crawl article with
    | Except.ok full_article => full_article :: crawl_loop crawl rest
    | Except.error _ => crawl_loop crawl rest

/-- Embedding of `DefaultNewsService.get_full_articles` (lines 42-65): fetch
the headlines once, then crawl each stub sequentially through the loop. -/
def DefaultNewsService_get_full_articles
    (get_headlines : String → Nat → List PartialArticle)
    (crawl : PartialArticle → Except String FullArticle)
    (source_id : String) (total : Nat) : List FullArticle :=
  crawl_loop crawl (get_headlines source_id total)

/-! ### Python values and dicts -/

/-- Python values that can appear in a document to store (the spec's
field-value union) plus one constructor for a value of any unsupported type,
carrying that type's name. Floating-point payloads are carried as opaque
text: the code never computes with them. -/
inductive PyValue where
  | str (s : String)
  | bool (b : Bool)
  | int (n : Int)
  | float (x : String)
  | list (l : List PyValue)
  | dict (d : List (String × PyValue))
  | none
  | other (typeName : String)

/-- One Python dict, as its insertion-ordered key/value pairs. -/
abbrev PyDict := List (String × PyValue)

/-- Python dict lookup on a built dict: the first entry with the key (keys
are unique in a dict built by `dictLit`). -/
def dictGet (d : PyDict) (k : String) : Option PyValue :=
  (d.find? (fun p => p.1 == k)).map (fun p => p.2)

/-- Last-occurrence lookup in a raw key/value list: the value the key holds
after all pairs are written into a dict in order. -/
def lookupLast (ps : PyDict) (k : String) : Option PyValue :=
  (ps.reverse.find? (fun p => p.1 == k)).map (fun p => p.2)

/-- Writing one key into a Python dict: an existing key keeps its position
and takes the new value; a new key is appended. -/
def dictInsert (d : PyDict) (k : String) (v : PyValue) : PyDict :=
  if d.any (fun p => p.1 == k) then d.map (fun p => if p.1 == k then (k, v) else p)
  else d ++ [(k, v)]

/-- A Python dict literal with unpacking: the pairs are written into an empty
dict left to right, so a later pair overrides an earlier one with the same
key. -/
def dictLit (ps : PyDict) : PyDict :=
  ps.foldl (fun d p => dictInsert d p.1 p.2) []

/-- Python `d["key"]`: a missing key raises `KeyError`. -/
def dictGetItem (d : PyDict) (k : String) : Except String PyValue :=
  match dictGet d k with
  | some v => Except.ok v
  | none => Except.error "KeyError"

/-! ### Analyzer (src/llm/openai_analyzer.py) -/

/-- Conversion of an optional-text field to the Python value the merged
result holds (`None` for a missing value). -/
def pyOfOptStr : Option String → PyValue
  | some s => PyValue.str s
  | none => PyValue.none

/-- The four metadata pairs written last into the merged analysis result
(src/llm/openai_analyzer.py lines 288-291), in source order. -/
def meta4 (article : PartialArticle) : PyDict :=
  [("url", PyValue.str article.url), ("title", PyValue.str article.title),
   ("author", pyOfOptStr article.author), ("imageUrl", pyOfOptStr article.imageUrl)]

/-- Embedding of the final merge of `analyze_article` (lines 284-292): the
Python dict literal holding the unpacked `step1_data`, then the unpacked
`step2_data`, then the four metadata fields. -/
def analysis_result (step1_data step2_data : PyDict) (article : PartialArticle) : PyDict :=
  dictLit (step1_data ++ step2_data ++ meta4 article)

/-- The merge as the claim words it: a reading of the three contributions in
which the stage outputs take precedence over the metadata fields on key
collision. Stated only to be compared against `analysis_result`. -/
def claimed_stage_precedence_merge (step1_data step2_data : PyDict)
    (article : PartialArticle) (k : String) : Option PyValue :=
  optOr (lookupLast step2_data k)
    (optOr (lookupLast step1_data k) (lookupLast (meta4 article) k))

/-- Embedding of `OpenAIArticleAnalyzer.analyze_article` (lines 269-294): the
two remote stages are the functions `step1` (called on `article.content[0]`)
and `step2` (called on `step1_data["shortened"]`); their results and the
article metadata are merged by `analysis_result`. Indexing an empty content
list raises `IndexError`. -/
def OpenAIArticleAnalyzer_analyze_article (step1 : String → Except String PyDict)
    (step2 : PyValue → Except String PyDict) (article : FullArticle) :
    Except String PyDict :=
  match article.content with
  | [] => Except.error "IndexError"
  | c :: _ => do
    let step1_data ← step1 c
    let shortened ← dictGetItem step1_data "shortened"
    let step2_data ← step2 shortened
    Except.ok (analysis_result step1_data step2_data article.article)

/-! ### Firestore client (src/firebase/firestore_client.py) -/

/-- Firestore tagged values: the wire union built by `_wrap_value`. -/
inductive FsValue where
  | stringValue (s : String)
  | booleanValue (b : Bool)
  | integerValue (s : String)
  | doubleValue (x : String)
  | arrayValue (values : List FsValue)
  | mapValue (fields : List (String × FsValue))
  | nullValue

/-- Python's `isinstance(value, int)`: true for ints and also for bools,
since `bool` is a subclass of `int`. The source therefore tests
`isinstance(value, bool)` first; see `_wrap_value`. -/
def pyIsinstanceInt : PyValue → Bool
  | PyValue.int _ => true
  | PyValue.bool _ => true
  | _ => false

mutual

/-- Embedding of `FirestoreClient._wrap_value` (lines 79-106). The isinstance
chain tests `str`, then `bool`, then `int`, then `float`, then `list`, then
`dict`, then `None`, in source order: the `bool` arm precedes the `int` arm
exactly as in the source, and `pyIsinstanceInt` records that a bool would
also pass the int test. A value of any other type raises `TypeError`. -/
def _wrap_value : PyValue → Except String FsValue
  | PyValue.str s => Except.ok (FsValue.stringValue s)
  | PyValue.bool b => Except.ok (FsValue.booleanValue b)
  | PyValue.int n => Except.ok (FsValue.integerValue (toString n))
  | PyValue.float x => Except.ok (FsValue.doubleValue x)
  | PyValue.list l => Except.map FsValue.arrayValue (_wrap_list l)
  | PyValue.dict d => Except.map FsValue.mapValue (_to_firestore_fields d)
  | PyValue.none => Except.ok FsValue.nullValue
  | PyValue.other typeName => Except.error ("Unsupported type: " ++ typeName)

/-- Recursive wrapping of the elements of a list value (the comprehension in
the `arrayValue` arm); the first failing element's error propagates. -/
def _wrap_list : List PyValue → Except String (List FsValue)
  | [] => Except.ok []
  | v :: vs => do
    let w ← _wrap_value v
    let ws ← _wrap_list vs
    Except.ok (w :: ws)

/-- Embedding of `FirestoreClient._to_firestore_fields` (lines 108-117). -/
def _to_firestore_fields : PyDict → Except String (List (String × FsValue))
  | [] => Except.ok []
  | p :: ps => do
    let w ← _wrap_value p.2
    let ws ← _to_firestore_fields ps
    Except.ok ((p.1, w) :: ws)

end

mutual

/-- Whether a value holds, anywhere inside it, a value of a type outside
string/bool/int/float/list/mapping/null. -/
def hasUnsupported : PyValue → Bool
  | PyValue.other _ => true
  | PyValue.list l => hasUnsupportedList l
  | PyValue.dict d => hasUnsupportedFields d
  | _ => false

/-- `hasUnsupported` over the elements of a list value. -/
def hasUnsupportedList : List PyValue → Bool
  | [] => false
  | v :: vs => hasUnsupported v || hasUnsupportedList vs

/-- `hasUnsupported` over the values of a field map. -/
def hasUnsupportedFields : PyDict → Bool
  | [] => false
  | p :: ps => hasUnsupported p.2 || hasUnsupportedFields ps

end

/-- Embedding of `FirestoreClient.insert_document` (lines 119-159): the
document body is wrapped into Firestore fields before the request is built;
the pair's second component is the trace of store requests actually sent
(the `requests.patch` call and its payload), so an encoding failure sends
none. -/
def insert_document (send : List (String × FsValue) → String)
    (collection : String) (document_id : List Nat) (document_data : PyDict) :
    Except String String × List (List (String × FsValue)) :=
  match _to_firestore_fields document_data with
  | Except.error e => (Except.error e, [])
  | Except.ok firestore_fields => (Except.ok (send firestore_fields), [firestore_fields])

/-! ### Processor (src/processor/init.py) -/

/-- Value of `constants.FIREBASE_COLLECTION`. Modelled from the spec: the
constants module is absent from the snapshot; the exact text is immaterial to
every claim. -/
def FIREBASE_COLLECTION : String := "news"

/-- Python's `value.encode("utf-8")` fails with `AttributeError` unless the
value is a string; `process_article` applies `url_to_document_id` to
`analyzed["url"]`. -/
def pyExpectStr : PyValue → Except String String
  | PyValue.str s => Except.ok s
  | _ => Except.error "AttributeError"

/-- Embedding of `NewsProcessor.process_article` (src/processor/init.py lines
162-183): crawl the article, analyze it, derive the document id from the
analyzed url, store the document. An exception in any stage is the `error`
result. -/
def process_article (crawl : PartialArticle → Except String FullArticle)
    (analyze : FullArticle → Except String PyDict)
    (insert : String → List Nat → PyDict → Except String String)
    (article : PartialArticle) : Except String Unit := do
  let crawled ← crawl article
  let analyzed ← analyze crawled
  let urlValue ← dictGetItem analyzed "url"
  let url ← pyExpectStr urlValue
  let encoded_url := url_to_document_id url.data
  let _ ← insert FIREBASE_COLLECTION encoded_url analyzed
  Except.ok ()

/-- States of one processor run, per the spec's orchestration state machine. -/
inductive ProcState where
  | fetching
  | processing
  | notifying
  | done
  deriving Repr, DecidableEq

/-- Observable trace of one batch run: the article-by-article outcomes in
order (`true` = succeeded), the bodies of the notification calls made after
the loop, and the state the run ends in. -/
structure RunTrace where
  outcomes : List (PartialArticle × Bool)
  notifications : List String
  final : ProcState

/-- One iteration of the processing loop: the per-article catch-everything
boundary of `NewsProcessor.run` (lines 195-199), plus the single
"most recent success" pointer of spec section 5, updated to the article's
title when `process_article` succeeds. -/
def run_step (pa : PartialArticle → Except String Unit)
    (acc : List (PartialArticle × Bool) × Option String) (article : PartialArticle) :
    List (PartialArticle × Bool) × Option String :=
  match pa article with
  | Except.ok _ => (acc.1 ++ [(article, true)], some article.title)
  | Except.error _ => (acc.1 ++ [(article, false)], acc.2)

/-- Embedding of `NewsProcessor.run`. The headline fetch and the per-article
loop with its catch-everything boundary are from the source (lines 185-199).
Modelled from the spec: the snapshot's processor module is a superseded
revision without the `Notifying` step — its own caller src/main.py targets a
processor revision absent from the snapshot — so the post-loop notification
follows the spec's orchestration rule: one notification call whose body is
the most recently succeeded article's title, skipped entirely when no article
succeeded, after which the run is `done` unconditionally. -/
def NewsProcessor_run (get_headlines : String → Nat → List PartialArticle)
    (crawl : PartialArticle → Except String FullArticle)
    (analyze : FullArticle → Except String PyDict)
    (insert : String → List Nat → PyDict → Except String String)
    (source_id : String) (total_articles : Nat) : RunTrace :=
  let articles := get_headlines source_id total_articles
  let r := articles.foldl (run_step (process_article crawl analyze insert))
    ([], Option.none)
  { outcomes := r.1
    notifications :=
      match r.2 with
      | some title => [title]
      | Option.none => []
    final := ProcState.done }

/-! ## Theorems -/

/-! ### C2: the document identifier derivation -/

/-- No alphabet character is the padding character. -/
theorem b64char_ne_pad (v : Nat) : b64char v ≠ 61 := by
  unfold b64char
  split_ifs <;> omega

/-- The alphabet map is inverted by `b64val` on every sextet value. -/
theorem b64val_b64char (v : Nat) (h : v < 64) : b64val (b64char v) = some v := by
  have hd : ∀ w : Fin 64, b64val (b64char w.val) = some w.val := by decide
  exact hd ⟨v, h⟩

/-- Decoding inverts encoding on every byte list. -/
theorem b64decode_b64encode (bs : List Nat) (h : ∀ b ∈ bs, b < 256) :
    b64decode (b64encode bs) = some bs := by
  induction bs using b64encode.induct with
  | case1 => rfl
  | case2 b0 =>
    have hb0 : b0 < 256 := h b0 (by simp)
    simp only [b64encode, b64decode]
    rw [if_pos (by simp)]
    rw [b64val_b64char _ (by omega), b64val_b64char _ (by omega)]
    simp only [Option.some.injEq, List.cons.injEq, and_true]
    omega
  | case3 b0 b1 =>
    have hb0 : b0 < 256 := h b0 (by simp)
    have hb1 : b1 < 256 := h b1 (by simp)
    simp only [b64encode, b64decode]
    rw [if_neg (fun hc => b64char_ne_pad _ hc.1)]
    rw [if_pos (by simp)]
    rw [b64val_b64char _ (by omega), b64val_b64char _ (by omega),
      b64val_b64char _ (by omega)]
    simp only [Option.some.injEq, List.cons.injEq, and_true]
    constructor <;> omega
  | case4 b0 b1 b2 rest ih =>
    have hb0 : b0 < 256 := h b0 (by simp)
    have hb1 : b1 < 256 := h b1 (by simp)
    have hb2 : b2 < 256 := h b2 (by simp)
    have hrest : ∀ b ∈ rest, b < 256 := fun b hb => h b (by simp [hb])
    simp only [b64encode, b64decode]
    rw [if_neg (fun hc => b64char_ne_pad _ hc.1)]
    rw [if_neg (fun hc => b64char_ne_pad _ hc.1)]
    rw [b64val_b64char _ (by omega), b64val_b64char _ (by omega),
      b64val_b64char _ (by omega), b64val_b64char _ (by omega), ih hrest]
    simp only [Option.some.injEq, List.cons.injEq, and_true]
    refine ⟨by omega, by omega, by omega⟩

/-- Dropping padding characters from a list that has none is the identity. -/
theorem dropWhile_pad_of_ne (xs : List Nat) (h : ∀ c ∈ xs, c ≠ 61) :
    xs.dropWhile (fun c => c == 61) = xs := by
  cases xs with
  | nil => rfl
  | cons x xs =>
    rw [List.dropWhile_cons]
    have hx : (x == 61) = false := by
      simpa using h x (by simp)
    simp [hx]

/-- Stripping trailing padding commutes with prepending padding-free text. -/
theorem rstripEq_append (l m : List Nat) (hl : ∀ c ∈ l, c ≠ 61) :
    rstripEq (l ++ m) = l ++ rstripEq m := by
  unfold rstripEq
  rw [List.reverse_append, List.dropWhile_append]
  split
  case isTrue hemp =>
    have hm : m.reverse.dropWhile (fun c => c == 61) = [] := by
      simpa [List.isEmpty_iff] using hemp
    rw [dropWhile_pad_of_ne l.reverse (fun c hc => hl c (by simpa using hc))]
    simp [hm]
  case isFalse hemp =>
    rw [List.reverse_append, List.reverse_reverse]

/-- Restoring padding skips over a leading 4-character group. -/
theorem restorePad_cons4 (a b c d : Nat) (m : List Nat) :
    restorePad (a :: b :: c :: d :: m) = a :: b :: c :: d :: restorePad m := by
  have harith : (4 - (m.length + 4) % 4) % 4 = (4 - m.length % 4) % 4 := by omega
  simp [restorePad, harith]

/-- Restoring the stripped padding of an encoded byte list recovers the full
encoding. -/
theorem restorePad_rstripEq_b64encode (bs : List Nat) :
    restorePad (rstripEq (b64encode bs)) = b64encode bs := by
  induction bs using b64encode.induct with
  | case1 => rfl
  | case2 b0 =>
    have h0 : (b64char (b0 / 4) == 61) = false := by simp [b64char_ne_pad]
    have h1 : (b64char (b0 % 4 * 16) == 61) = false := by simp [b64char_ne_pad]
    simp [b64encode, rstripEq, List.dropWhile, h0, h1, restorePad]
  | case3 b0 b1 =>
    have h0 : (b64char (b0 / 4) == 61) = false := by simp [b64char_ne_pad]
    have h1 : (b64char (b0 % 4 * 16 + b1 / 16) == 61) = false := by simp [b64char_ne_pad]
    have h2 : (b64char (b1 % 16 * 4) == 61) = false := by simp [b64char_ne_pad]
    simp [b64encode, rstripEq, List.dropWhile, h0, h1, h2, restorePad]
  | case4 b0 b1 b2 rest ih =>
    have hl : ∀ c ∈ [b64char (b0 / 4), b64char (b0 % 4 * 16 + b1 / 16),
        b64char (b1 % 16 * 4 + b2 / 64), b64char (b2 % 64)], c ≠ 61 := by
      intro c hc
      simp only [List.mem_cons, List.not_mem_nil, or_false] at hc
      rcases hc with h | h | h | h <;> subst h <;> exact b64char_ne_pad _
    have hsplit : b64encode (b0 :: b1 :: b2 :: rest) =
        [b64char (b0 / 4), b64char (b0 % 4 * 16 + b1 / 16),
         b64char (b1 % 16 * 4 + b2 / 64), b64char (b2 % 64)] ++ b64encode rest := rfl
    rw [hsplit, rstripEq_append _ _ hl]
    simp only [List.cons_append, List.nil_append]
    rw [restorePad_cons4, ih]

/-- Every character's code point is below the unicode bound. -/
theorem char_toNat_lt_1114112 (c : Char) : c.toNat < 1114112 := by
  rcases c.valid with h | ⟨h1, h2⟩
  · exact Nat.lt_trans h (by norm_num)
  · exact h2

/-- UTF-8 encoding of one character produces bytes. -/
theorem utf8EncodeChar_lt (c : Char) : ∀ b ∈ utf8EncodeChar c, b < 256 := by
  have hc : c.toNat < 1114112 := char_toNat_lt_1114112 c
  unfold utf8EncodeChar
  split_ifs with h1 h2 h3 <;> intro b hb <;>
    simp only [List.mem_cons, List.not_mem_nil, or_false] at hb <;> omega

/-- UTF-8 encoding of a string produces bytes. -/
theorem utf8Encode_lt (url : List Char) : ∀ b ∈ utf8Encode url, b < 256 := by
  induction url with
  | nil => simp [utf8Encode]
  | cons c cs ih =>
    intro b hb
    rw [utf8Encode, List.mem_append] at hb
    rcases hb with h | h
    · exact utf8EncodeChar_lt c b h
    · exact ih b h

/-- C2: `url_to_document_id` is deterministic (it is a pure function of the
URL's characters) and reversible: URL-safe base64-decoding its output, after
restoring the stripped padding, yields exactly the UTF-8 bytes of the
original URL — for every URL, including ones containing reserved or
non-ASCII characters. Hence two calls on the same URL produce the same
document identifier. -/
theorem url_to_document_id_reversible (url : List Char) :
    b64decode (restorePad (url_to_document_id url)) = some (utf8Encode url) := by
  unfold url_to_document_id
  rw [restorePad_rstripEq_b64encode]
  exact b64decode_b64encode _ (utf8Encode_lt url)

/-! ### C3: the news service's surviving subset -/

/-- The crawl loop returns exactly the successful crawl results, in order. -/
theorem crawl_loop_eq_filterMap (crawl : PartialArticle → Except String FullArticle)
    (l : List PartialArticle) :
    crawl_loop crawl l = l.filterMap (fun a => (crawl a).toOption) := by
  induction l with
  | nil => rfl
  | cons a l ih =>
    cases h : crawl a with
    | ok full => simp [crawl_loop, h, ih, Except.toOption]
    | error e => simp [crawl_loop, h, ih, Except.toOption]

/-- C3: for every headline source, crawler behaviour, source identifier and
count, `get_full_articles` returns exactly the crawl results of the stubs
whose crawl succeeded, in the stubs' relative order (so a failing crawl
removes only its own article while the remaining stubs are still crawled),
and its length is at most the number N of fetched stubs. -/
theorem get_full_articles_survivors (get_headlines : String → Nat → List PartialArticle)
    (crawl : PartialArticle → Except String FullArticle) (source_id : String) (total : Nat) :
    DefaultNewsService_get_full_articles get_headlines crawl source_id total =
      (get_headlines source_id total).filterMap (fun a => (crawl a).toOption) ∧
    (DefaultNewsService_get_full_articles get_headlines crawl source_id total).length ≤
      (get_headlines source_id total).length := by
  constructor
  · exact crawl_loop_eq_filterMap crawl (get_headlines source_id total)
  · unfold DefaultNewsService_get_full_articles
    rw [crawl_loop_eq_filterMap]
    exact List.length_filterMap_le _ _

/-! ### C5: degraded success of the crawlers -/

/-- C5: for both crawlers, a page whose publisher-specific content region is
absent yields an `ok` FullArticle whose extracted content is the empty string
(the content field holds the single element `""`), and the crawl fails
exactly when the transport fails (`raise_for_status` on a non-2xx reply),
with that error propagating unchanged. -/
theorem crawl_article_degraded_success
    (fetchA : String → String → Except String String) (findA : String → Option String)
    (get_textA : String → String) (keyA : String) (newsA : PartialArticle)
    (fetchT : String → String → Except String String) (findT : String → Option String)
    (get_textT : String → String) (keyT : String) (newsT : PartialArticle) :
    (∀ page, fetchA keyA newsA.url = Except.ok page → findA page = none →
      APNewsCrawler_crawl_article fetchA findA get_textA keyA newsA =
        Except.ok (_create_crawled_news newsA [""])) ∧
    (∀ e, APNewsCrawler_crawl_article fetchA findA get_textA keyA newsA = Except.error e ↔
      fetchA keyA newsA.url = Except.error e) ∧
    (∀ page, fetchT keyT newsT.url = Except.ok page → findT page = none →
      TuoiTreNewsCrawler_crawl_article fetchT findT get_textT keyT newsT =
        Except.ok (_create_crawled_news newsT [""])) ∧
    (∀ e, TuoiTreNewsCrawler_crawl_article fetchT findT get_textT keyT newsT = Except.error e ↔
      fetchT keyT newsT.url = Except.error e) := by
  refine ⟨?_, ?_, ?_, ?_⟩
  · intro page hf hfind
    simp [APNewsCrawler_crawl_article, hf, hfind]
  · intro e
    cases hf : fetchA keyA newsA.url <;> simp [APNewsCrawler_crawl_article, hf]
  · intro page hf hfind
    simp [TuoiTreNewsCrawler_crawl_article, hf, hfind]
  · intro e
    cases hf : fetchT keyT newsT.url <;> simp [TuoiTreNewsCrawler_crawl_article, hf]

/-- Witness for C5 at a concrete transport, page and article: the region is
absent and both crawls return the degraded-success article. -/
theorem crawl_article_degraded_success_witness :
    APNewsCrawler_crawl_article (fun _ _ => Except.ok "page") (fun _ => none) (fun s => s)
        "key" { author := none, title := "T", url := "u", imageUrl := none } =
      Except.ok (_create_crawled_news
        { author := none, title := "T", url := "u", imageUrl := none } [""]) ∧
    TuoiTreNewsCrawler_crawl_article (fun _ _ => Except.ok "page") (fun _ => none) (fun s => s)
        "key" { author := none, title := "T", url := "u", imageUrl := none } =
      Except.ok (_create_crawled_news
        { author := none, title := "T", url := "u", imageUrl := none } [""]) :=
  ⟨(crawl_article_degraded_success (fun _ _ => Except.ok "page") (fun _ => none) (fun s => s)
      "key" { author := none, title := "T", url := "u", imageUrl := none }
      (fun _ _ => Except.ok "page") (fun _ => none) (fun s => s)
      "key" { author := none, title := "T", url := "u", imageUrl := none }).1 "page" rfl rfl,
   (crawl_article_degraded_success (fun _ _ => Except.ok "page") (fun _ => none) (fun s => s)
      "key" { author := none, title := "T", url := "u", imageUrl := none }
      (fun _ _ => Except.ok "page") (fun _ => none) (fun s => s)
      "key" { author := none, title := "T", url := "u", imageUrl := none }).2.2.1 "page" rfl rfl⟩

/-! ### C7: headline transport failure is swallowed -/

/-- C7: every transport failure of the headline fetch (a network error or a
non-2xx status, the `RequestException` cases) makes `get_headlines` return
the empty list instead of raising to the caller. -/
theorem get_headlines_transport_failure_empty
    (fetch : String → Nat → Except String NewsAPIResponse) (source_id : String)
    (total : Nat) (e : String) (h : fetch source_id total = Except.error e) :
    NewsAPIClient_get_headlines fetch source_id total = [] := by
  simp [NewsAPIClient_get_headlines, h]

/-- Witness for C7 at a concrete failing transport. -/
theorem get_headlines_transport_failure_empty_witness :
    NewsAPIClient_get_headlines (fun _ _ => Except.error "ConnectionError") "bbc-news" 5 = [] :=
  get_headlines_transport_failure_empty
    (fun _ _ => Except.error "ConnectionError") "bbc-news" 5 "ConnectionError" rfl

/-! ### C8: the total parameter versus the result length -/

/-- Counterexample to C8 as stated: an upstream response carrying two articles
against `total = 1` yields two stubs — the client forwards `total` only as the
page-size hint and never truncates, so the parameter does not bound the
result length for every upstream response. -/
theorem get_headlines_total_not_bounding_cex :
    (NewsAPIClient_get_headlines
        (fun _ _ => Except.ok
          { articles :=
              [{ author := none, title := "a", url := "u1", urlToImage := none },
               { author := none, title := "b", url := "u2", urlToImage := none }] })
        "associated-press" 1).length = 2 ∧ ¬(2 ≤ 1) :=
  ⟨rfl, by omega⟩

/-- C8 (amended): the result length is bounded by the number of articles in
the upstream response (with equality for the NewsAPI client; the NewsData.io
client additionally filters out records lacking a truthy title or link), so
the `total` parameter bounds the result length exactly when the upstream
honours the forwarded page-size hint. -/
theorem get_headlines_bounded_by_upstream :
    (∀ (fetch : String → Nat → Except String NewsAPIResponse) (source_id : String)
        (total : Nat) (response : NewsAPIResponse),
        fetch source_id total = Except.ok response →
        (NewsAPIClient_get_headlines fetch source_id total).length =
          response.articles.length ∧
        (response.articles.length ≤ total →
          (NewsAPIClient_get_headlines fetch source_id total).length ≤ total)) ∧
    (∀ (fetch : String → Nat → Except String NewsIOResponse) (source_id : String)
        (total : Nat) (data : NewsIOResponse),
        fetch source_id total = Except.ok data →
        (NewsIOAPIClient_get_headlines fetch source_id total).length ≤
          data.results.length ∧
        (data.results.length ≤ total →
          (NewsIOAPIClient_get_headlines fetch source_id total).length ≤ total)) := by
  constructor
  · intro fetch source_id total response h
    have hlen : (NewsAPIClient_get_headlines fetch source_id total).length =
        response.articles.length := by
      simp [NewsAPIClient_get_headlines, h]
    exact ⟨hlen, fun hb => hlen ▸ hb⟩
  · intro fetch source_id total data h
    have hlen : (NewsIOAPIClient_get_headlines fetch source_id total).length ≤
        data.results.length := by
      simp only [NewsIOAPIClient_get_headlines, h]
      split_ifs <;> simp [List.length_filter_le]
    exact ⟨hlen, fun hb => le_trans hlen hb⟩

/-- Witness for C8's amended bound at concrete responses. -/
theorem get_headlines_bounded_by_upstream_witness :
    (NewsAPIClient_get_headlines
        (fun _ _ => Except.ok { articles := [] }) "bbc-news" 3).length = 0 ∧
    (NewsIOAPIClient_get_headlines
        (fun _ _ => Except.ok { status := "success", totalResults := 1, results := [] })
        "tuoitre" 3).length ≤ 0 :=
  ⟨(get_headlines_bounded_by_upstream.1 (fun _ _ => Except.ok { articles := [] })
      "bbc-news" 3 { articles := [] } rfl).1,
   (get_headlines_bounded_by_upstream.2
      (fun _ _ => Except.ok { status := "success", totalResults := 1, results := [] })
      "tuoitre" 3 { status := "success", totalResults := 1, results := [] } rfl).1⟩

/-! ### C9: crawler-produced content is a singleton -/

/-- C9: every FullArticle a crawler returns is built by `_create_crawled_news`
with a one-element content list, so the analyzer's read of
`article.content[0]` never fails for crawler-produced input. -/
theorem crawler_content_singleton
    (fetchA : String → String → Except String String) (findA : String → Option String)
    (get_textA : String → String) (keyA : String) (newsA : PartialArticle)
    (fetchT : String → String → Except String String) (findT : String → Option String)
    (get_textT : String → String) (keyT : String) (newsT : PartialArticle) :
    (∀ full, APNewsCrawler_crawl_article fetchA findA get_textA keyA newsA =
        Except.ok full → ∃ c, full.content = [c]) ∧
    (∀ full, TuoiTreNewsCrawler_crawl_article fetchT findT get_textT keyT newsT =
        Except.ok full → ∃ c, full.content = [c]) := by
  constructor
  · intro full h
    cases hf : fetchA keyA newsA.url with
    | error e => simp [APNewsCrawler_crawl_article, hf] at h
    | ok page =>
      simp only [APNewsCrawler_crawl_article, hf, Except.ok.injEq] at h
      subst h
      exact ⟨_, rfl⟩
  · intro full h
    cases hf : fetchT keyT newsT.url with
    | error e => simp [TuoiTreNewsCrawler_crawl_article, hf] at h
    | ok page =>
      simp only [TuoiTreNewsCrawler_crawl_article, hf, Except.ok.injEq] at h
      subst h
      exact ⟨_, rfl⟩

/-- Witness for C9 at a concrete transport and article. -/
theorem crawler_content_singleton_witness :
    (∃ c, (_create_crawled_news
        { author := none, title := "T", url := "u", imageUrl := none } [""]).content = [c]) ∧
    (∃ c, (_create_crawled_news
        { author := none, title := "T", url := "u", imageUrl := none } [""]).content = [c]) :=
  ⟨(crawler_content_singleton (fun _ _ => Except.ok "page") (fun _ => none) (fun s => s)
      "key" { author := none, title := "T", url := "u", imageUrl := none }
      (fun _ _ => Except.ok "page") (fun _ => none) (fun s => s)
      "key" { author := none, title := "T", url := "u", imageUrl := none }).1
    (_create_crawled_news { author := none, title := "T", url := "u", imageUrl := none } [""]) rfl,
   (crawler_content_singleton (fun _ _ => Except.ok "page") (fun _ => none) (fun s => s)
      "key" { author := none, title := "T", url := "u", imageUrl := none }
      (fun _ _ => Except.ok "page") (fun _ => none) (fun s => s)
      "key" { author := none, title := "T", url := "u", imageUrl := none }).2
    (_create_crawled_news { author := none, title := "T", url := "u", imageUrl := none } [""]) rfl⟩

/-! ### C6: precedence in the analyzer merge -/

/-- Lookup on a cons cell of a dict. -/
theorem dictGet_cons (k0 : String) (v0 : PyValue) (d : PyDict) (k : String) :
    dictGet ((k0, v0) :: d) k = if k0 == k then some v0 else dictGet d k := by
  unfold dictGet
  by_cases h : (k0 == k) = true
  · rw [List.find?_cons_of_pos _ (by simpa using h)]
    simp [h]
  · rw [List.find?_cons_of_neg _ (by simpa using h)]
    simp [h]

/-- Replacing the entries of one key leaves every other key's lookup alone. -/
theorem dictGet_map_replace_ne (d : PyDict) (k k' : String) (v : PyValue)
    (h : (k == k') = false) :
    dictGet (d.map (fun p => if p.1 == k then (k, v) else p)) k' = dictGet d k' := by
  induction d with
  | nil => rfl
  | cons p d ih =>
    obtain ⟨k0, v0⟩ := p
    simp only [List.map_cons]
    by_cases h0 : (k0 == k) = true
    · have hk0 : k0 = k := by simpa using h0
      subst hk0
      rw [if_pos h0, dictGet_cons, dictGet_cons, ih]
      simp [h]
    · rw [if_neg h0, dictGet_cons, dictGet_cons, ih]

/-- Replacing the entries of a key present in the dict makes that key's lookup
the new value. -/
theorem dictGet_map_replace_eq (d : PyDict) (k : String) (v : PyValue)
    (hany : d.any (fun p => p.1 == k) = true) :
    dictGet (d.map (fun p => if p.1 == k then (k, v) else p)) k = some v := by
  induction d with
  | nil => simp at hany
  | cons p d ih =>
    obtain ⟨k0, v0⟩ := p
    simp only [List.map_cons]
    by_cases h0 : (k0 == k) = true
    · rw [if_pos h0, dictGet_cons]
      simp
    · have hb : (k0 == k) = false := by
        cases hb' : (k0 == k)
        · rfl
        · exact absurd hb' h0
      have hd : d.any (fun p => p.1 == k) = true := by
        rw [List.any_cons] at hany
        simpa [hb] using hany
      rw [if_neg h0, dictGet_cons, ih hd]
      simp [hb]

/-- Appending a fresh key's entry: its lookup finds the new value, every other
lookup is unchanged. -/
theorem dictGet_append_single (d : PyDict) (k : String) (v : PyValue) (k' : String)
    (hany : d.any (fun p => p.1 == k) = false) :
    dictGet (d ++ [(k, v)]) k' = if k == k' then some v else dictGet d k' := by
  induction d with
  | nil => simp [dictGet_cons, dictGet]
  | cons p d ih =>
    obtain ⟨k0, v0⟩ := p
    have h0 : (k0 == k) = false := by
      cases hb : (k0 == k)
      · rfl
      · exfalso
        rw [List.any_cons] at hany
        simp [hb] at hany
    have hd : d.any (fun p => p.1 == k) = false := by
      rw [List.any_cons] at hany
      simpa [h0] using hany
    rw [List.cons_append, dictGet_cons, dictGet_cons, ih hd]
    by_cases h1 : (k0 == k') = true
    · have hne : (k == k') = false := by
        have e1 : k0 = k' := by simpa using h1
        have e0 : ¬(k0 = k) := by simpa using h0
        subst e1
        cases hb : (k == k0)
        · rfl
        · exact absurd (by simpa using hb : k = k0).symm e0
      simp [h1, hne]
    · simp [h1]

/-- Lookup after writing one key into a dict. -/
theorem dictGet_dictInsert (d : PyDict) (k : String) (v : PyValue) (k' : String) :
    dictGet (dictInsert d k v) k' = if k == k' then some v else dictGet d k' := by
  unfold dictInsert
  by_cases hany : (d.any (fun p => p.1 == k)) = true
  · rw [if_pos hany]
    by_cases hk : (k == k') = true
    · have hk' : k = k' := by simpa using hk
      subst hk'
      rw [dictGet_map_replace_eq d k v hany]
      simp [hk]
    · have hkf : (k == k') = false := by
        cases hb : (k == k')
        · rfl
        · exact absurd hb hk
      rw [dictGet_map_replace_ne d k k' v hkf]
      simp [hkf]
  · rw [if_neg hany]
    have hfalse : (d.any fun p => p.1 == k) = false := by
      cases hb : d.any fun p => p.1 == k
      · rfl
      · exact absurd hb hany
    exact dictGet_append_single d k v k' hfalse

/-- Last-occurrence lookup on a cons cell. -/
theorem lookupLast_cons (p : String × PyValue) (ps : PyDict) (k : String) :
    lookupLast (p :: ps) k =
      optOr (lookupLast ps k) (if p.1 == k then some p.2 else none) := by
  unfold lookupLast
  rw [List.reverse_cons, List.find?_append]
  cases hf : ps.reverse.find? (fun q => q.1 == k) <;>
    by_cases h : (p.1 == k) = true <;>
      simp [Option.or, optOr, List.find?_cons, List.find?_nil, h, hf]

/-- Last-occurrence lookup splits over an append, later pairs first. -/
theorem lookupLast_append (ps qs : PyDict) (k : String) :
    lookupLast (ps ++ qs) k = optOr (lookupLast qs k) (lookupLast ps k) := by
  unfold lookupLast
  rw [List.reverse_append, List.find?_append]
  cases hf : qs.reverse.find? (fun q => q.1 == k) <;> simp [Option.or, optOr, hf]

/-- Building a dict literal over an initial dict: a key's lookup is its last
written occurrence, falling back to the initial dict. -/
theorem dictGet_foldl (ps : PyDict) : ∀ (d : PyDict) (k : String),
    dictGet (ps.foldl (fun m p => dictInsert m p.1 p.2) d) k =
      optOr (lookupLast ps k) (dictGet d k) := by
  induction ps with
  | nil => intro d k; simp [lookupLast, optOr]
  | cons p ps ih =>
    intro d k
    rw [List.foldl_cons, ih, lookupLast_cons, dictGet_dictInsert]
    cases lookupLast ps k <;> by_cases h : (p.1 == k) = true <;> simp [optOr, h]

/-- Counterexample to C6 as stated: with a Stage-1 field named `url` holding
`"x"` and an originating article whose url is `"y"`, the merged result's
`url` is `"y"` — the metadata field written last wins, not the stage output
as the claim has it. -/
theorem analysis_result_metadata_overrides_cex :
    dictGet (analysis_result [("url", PyValue.str "x")] []
        { author := none, title := "t", url := "y", imageUrl := none }) "url" ≠
      claimed_stage_precedence_merge [("url", PyValue.str "x")] []
        { author := none, title := "t", url := "y", imageUrl := none } "url" := by
  have h1 : dictGet (analysis_result [("url", PyValue.str "x")] []
      { author := none, title := "t", url := "y", imageUrl := none }) "url" =
      some (PyValue.str "y") := rfl
  have h2 : claimed_stage_precedence_merge [("url", PyValue.str "x")] []
      { author := none, title := "t", url := "y", imageUrl := none } "url" =
      some (PyValue.str "x") := rfl
  rw [h1, h2]
  intro h
  have hs : PyValue.str "y" = PyValue.str "x" := Option.some.inj h
  injection hs with h'
  exact absurd h' (by decide)

/-- C6 (amended): the analyzer's final result is the merge of the Stage-1
fields, the Stage-2 fields and the four metadata fields of the originating
article, and on key collision the metadata fields take precedence over the
stage outputs, and Stage 2 over Stage 1 — the contributions written later
into the dict literal win. -/
theorem analysis_result_merge_precedence (step1_data step2_data : PyDict)
    (article : PartialArticle) (k : String) :
    dictGet (analysis_result step1_data step2_data article) k =
      optOr (lookupLast (meta4 article) k)
        (optOr (lookupLast step2_data k) (lookupLast step1_data k)) := by
  unfold analysis_result dictLit
  rw [dictGet_foldl, lookupLast_append, lookupLast_append]
  cases lookupLast (meta4 article) k <;> cases lookupLast step2_data k <;>
    cases lookupLast step1_data k <;> simp [optOr, dictGet]

/-! ### C10: the Firestore value encoder -/

mutual

/-- An unsupported value anywhere inside a value makes `_wrap_value` raise. -/
theorem _wrap_value_unsupported :
    ∀ v, hasUnsupported v = true → ∃ e, _wrap_value v = Except.error e
  | PyValue.str s, h => by simp [hasUnsupported] at h
  | PyValue.bool b, h => by simp [hasUnsupported] at h
  | PyValue.int n, h => by simp [hasUnsupported] at h
  | PyValue.float x, h => by simp [hasUnsupported] at h
  | PyValue.none, h => by simp [hasUnsupported] at h
  | PyValue.other t, _ => ⟨"Unsupported type: " ++ t, rfl⟩
  | PyValue.list l, h => by
    have hl : hasUnsupportedList l = true := by simpa [hasUnsupported] using h
    obtain ⟨e, he⟩ := _wrap_list_unsupported l hl
    exact ⟨e, by simp [_wrap_value, he, Except.map]⟩
  | PyValue.dict d, h => by
    have hd : hasUnsupportedFields d = true := by simpa [hasUnsupported] using h
    obtain ⟨e, he⟩ := _to_firestore_fields_unsupported d hd
    exact ⟨e, by simp [_wrap_value, he, Except.map]⟩

/-- An unsupported value inside a list makes `_wrap_list` raise. -/
theorem _wrap_list_unsupported :
    ∀ l, hasUnsupportedList l = true → ∃ e, _wrap_list l = Except.error e
  | [], h => by simp [hasUnsupportedList] at h
  | v :: vs, h => by
    cases hw : _wrap_value v with
    | error e => exact ⟨e, by simp only [_wrap_list, hw]; rfl⟩
    | ok w =>
      have hv : hasUnsupported v = false := by
        cases hb : hasUnsupported v
        · rfl
        · obtain ⟨e, he⟩ := _wrap_value_unsupported v hb
          rw [he] at hw
          cases hw
      have hvs : hasUnsupportedList vs = true := by
        rw [hasUnsupportedList, hv] at h
        simpa using h
      obtain ⟨e, he⟩ := _wrap_list_unsupported vs hvs
      exact ⟨e, by simp only [_wrap_list, hw, he]; rfl⟩

/-- An unsupported value among a field map's values makes
`_to_firestore_fields` raise. -/
theorem _to_firestore_fields_unsupported :
    ∀ d, hasUnsupportedFields d = true → ∃ e, _to_firestore_fields d = Except.error e
  | [], h => by simp [hasUnsupportedFields] at h
  | p :: ps, h => by
    cases hw : _wrap_value p.2 with
    | error e => exact ⟨e, by simp only [_to_firestore_fields, hw]; rfl⟩
    | ok w =>
      have hv : hasUnsupported p.2 = false := by
        cases hb : hasUnsupported p.2
        · rfl
        · obtain ⟨e, he⟩ := _wrap_value_unsupported p.2 hb
          rw [he] at hw
          cases hw
      have hps : hasUnsupportedFields ps = true := by
        rw [hasUnsupportedFields, hv] at h
        simpa using h
      obtain ⟨e, he⟩ := _to_firestore_fields_unsupported ps hps
      exact ⟨e, by simp only [_to_firestore_fields, hw, he]; rfl⟩

end

/-- C10: the value encoder maps a bool to a `booleanValue` and never to an
`integerValue` — the bool arm precedes the int arm, which matters because a
bool also passes Python's int test (`pyIsinstanceInt`) — maps an int to an
`integerValue` whose payload is the integer's decimal string, and raises a
`TypeError` for any value outside string/bool/int/float/list/mapping/null
before any store request is sent (the request trace stays empty). -/
theorem wrap_value_insert_semantics :
    (∀ b, _wrap_value (PyValue.bool b) = Except.ok (FsValue.booleanValue b)) ∧
    (∀ b, pyIsinstanceInt (PyValue.bool b) = true) ∧
    (∀ b s, _wrap_value (PyValue.bool b) ≠ Except.ok (FsValue.integerValue s)) ∧
    (∀ n : Int, _wrap_value (PyValue.int n) = Except.ok (FsValue.integerValue (toString n))) ∧
    (∀ send collection document_id document_data,
      hasUnsupportedFields document_data = true →
      ∃ e, insert_document send collection document_id document_data =
        (Except.error e, [])) := by
  refine ⟨fun b => rfl, fun b => rfl, ?_, fun n => rfl, ?_⟩
  · intro b s h
    simp [_wrap_value] at h
  · intro send collection document_id document_data h
    obtain ⟨e, he⟩ := _to_firestore_fields_unsupported document_data h
    exact ⟨e, by simp [insert_document, he]⟩

/-- Witness for C10 at concrete values: a bool document value and a document
holding a value of an unsupported type (a Python set), for which the insert
fails with no request sent. -/
theorem wrap_value_insert_semantics_witness :
    _wrap_value (PyValue.bool true) = Except.ok (FsValue.booleanValue true) ∧
    hasUnsupportedFields [("payload", PyValue.other "set")] = true ∧
    (∃ e, insert_document (fun _ => "stored") "news" []
        [("payload", PyValue.other "set")] = (Except.error e, [])) :=
  ⟨wrap_value_insert_semantics.1 true, rfl,
   wrap_value_insert_semantics.2.2.2.2 (fun _ => "stored") "news" []
     [("payload", PyValue.other "set")] rfl⟩

/-! ### C1 and C4: the processor loop and its notification -/

/-- Unrolling the processing loop: the outcomes are one per article in order,
and the final "most recent success" pointer is the last succeeding article's
title, falling back to the initial pointer. -/
theorem run_foldl_spec (pa : PartialArticle → Except String Unit) (l : List PartialArticle) :
    ∀ (acc : List (PartialArticle × Bool)) (last : Option String),
      l.foldl (run_step pa) (acc, last) =
        (acc ++ l.map (fun a => (a, (pa a).isOk)),
         optOr ((l.reverse.find? (fun a => (pa a).isOk)).map (fun a => a.title)) last) := by
  induction l with
  | nil => intro acc last; simp [optOr]
  | cons a l ih =>
    intro acc last
    rw [List.foldl_cons]
    cases h : pa a with
    | ok u =>
      have hisok : (pa a).isOk = true := by simp [h, Except.isOk, Except.toBool]
      have hstep : run_step pa (acc, last) a = (acc ++ [(a, true)], some a.title) := by
        simp [run_step, h]
      rw [hstep, ih, List.reverse_cons, List.find?_append]
      have hfind : List.find? (fun x => (pa x).isOk) [a] = some a := by
        simp [List.find?_cons, hisok]
      rw [hfind]
      have hassoc : acc ++ [(a, true)] ++ l.map (fun x => (x, (pa x).isOk)) =
          acc ++ (a, (pa a).isOk) :: l.map (fun x => (x, (pa x).isOk)) := by
        simp [hisok]
      rw [hassoc]
      congr 1
      cases hf : l.reverse.find? (fun x => (pa x).isOk) <;> simp [optOr, Option.or]
    | error e =>
      have hisok : (pa a).isOk = false := by simp [h, Except.isOk, Except.toBool]
      have hstep : run_step pa (acc, last) a = (acc ++ [(a, false)], last) := by
        simp [run_step, h]
      rw [hstep, ih, List.reverse_cons, List.find?_append]
      have hfind : List.find? (fun x => (pa x).isOk) [a] = none := by
        simp [List.find?_cons, hisok]
      rw [hfind]
      have hassoc : acc ++ [(a, false)] ++ l.map (fun x => (x, (pa x).isOk)) =
          acc ++ (a, (pa a).isOk) :: l.map (fun x => (x, (pa x).isOk)) := by
        simp [hisok]
      rw [hassoc]
      congr 1
      cases hf : l.reverse.find? (fun x => (pa x).isOk) <;> simp [optOr, Option.or]

/-- C1: for every batch run, the run makes no notification call when no
article's processing succeeded, and exactly one notification call otherwise,
its body carrying the title of the most recently succeeded article (the last
success in processing order, found here from the end of the batch). -/
theorem NewsProcessor_run_notification (get_headlines : String → Nat → List PartialArticle)
    (crawl : PartialArticle → Except String FullArticle)
    (analyze : FullArticle → Except String PyDict)
    (insert : String → List Nat → PyDict → Except String String)
    (source_id : String) (total_articles : Nat) :
    (NewsProcessor_run get_headlines crawl analyze insert source_id total_articles).notifications =
      match (get_headlines source_id total_articles).reverse.find?
          (fun a => (process_article crawl analyze insert a).isOk) with
      | some a => [a.title]
      | none => [] := by
  simp only [NewsProcessor_run]
  rw [run_foldl_spec]
  cases hf : (get_headlines source_id total_articles).reverse.find?
      (fun a => (process_article crawl analyze insert a).isOk) <;>
    simp [optOr, hf]

/-- C4: for every batch run, every exception inside one article's crawl,
analysis or store is contained by the per-article boundary: the run records
one outcome per fetched article, in order, each later article is attempted
regardless of earlier failures, and the run ends in its terminal state
unconditionally. -/
theorem NewsProcessor_run_attempts_all (get_headlines : String → Nat → List PartialArticle)
    (crawl : PartialArticle → Except String FullArticle)
    (analyze : FullArticle → Except String PyDict)
    (insert : String → List Nat → PyDict → Except String String)
    (source_id : String) (total_articles : Nat) :
    (NewsProcessor_run get_headlines crawl analyze insert source_id total_articles).outcomes =
      (get_headlines source_id total_articles).map
        (fun a => (a, (process_article crawl analyze insert a).isOk)) ∧
    (NewsProcessor_run get_headlines crawl analyze insert source_id total_articles).final =
      ProcState.done := by
  constructor
  · simp only [NewsProcessor_run]
    rw [run_foldl_spec]
    simp
  · rfl

end APNews
